import Mathlib

/-!
Verification development for the listen-mode pipeline of the personal-cluely
repository.

The embedding below follows the source:
* `LLMHelper.respondToTextWithHistory` and `LLMHelper.analyzeAudioFromBase64`
  (src/electron/LLMHelper.ts) — the two retry loops around the Gemini call;
* `ProcessingHelper.processConversationalAudio` (ProcessingHelper.ts) — the
  Transcriber → Responder pipeline with its bounded conversation history;
* the ipc handler for the analyze-audio-conversational channel (ipcHandlers.ts);
* the volume-check tick, fallback speech timer, processing completion and
  stop logic of the QueueCommands component (QueueCommands.tsx).

External network calls are abstracted as stub functions handed to the embedded
code: a Transcriber stub gives the outcome of the transcription call and a
Responder stub gives the outcome of each successive generation attempt.
-/

set_option linter.unusedVariables false

deriving instance DecidableEq for Except

namespace PersonalCluely

/-! ## Data model -/

/-- A conversation role, as stored in listenConversationHistory. -/
inductive Role where
  | user
  | assistant
  deriving DecidableEq, Repr

/-- One entry of a conversation history: role plus content string. -/
structure HistEntry where
  role : Role
  content : String
  deriving DecidableEq, Repr

/-- Result record returned by the LLM helpers: text plus timestamp. -/
structure RespResult where
  text : String
  timestamp : Int
  deriving DecidableEq, Repr

/-- Shape of an error thrown by the generation API: message and optional
HTTP status, the two fields inspected by the rate-limit test. -/
structure ApiError where
  message : String
  status : Option Nat
  deriving DecidableEq, Repr

/-- The two assistant modes selectable in the UI. -/
inductive Mode where
  | meeting
  | conversation
  deriving DecidableEq, Repr

/-! ## Rate-limit detection (LLMHelper.analyzeAudioFromBase64, lines 260-265) -/

def ratePat : String := "rate"

def quotaPat : String := "quota"

def throttlPat : String := "throttl"

/-- Does the second list start with the first one? -/
def listStartsWith : List Char → List Char → Bool
  | [], _ => true
  | _ :: _, [] => false
  | p :: ps, c :: cs => p == c && listStartsWith ps cs

/-- Does the first list contain the second as a contiguous segment? -/
def listHasSegment : List Char → List Char → Bool
  | [], pat => pat.isEmpty
  | c :: cs, pat => listStartsWith pat (c :: cs) || listHasSegment cs pat

/-- Substring containment, modelling the String.includes calls. -/
def containsSubstr (s pat : String) : Bool :=
  listHasSegment s.data pat.data

/-- The characters removed by the trim call on a transcript (the source
transcripts are plain ASCII). -/
def isJsWhitespace (c : Char) : Bool :=
  c == ' ' || c == '\t' || c == '\n' || c == '\r'

/-- Trim whitespace from both ends, modelling the trim call. -/
def jsTrim (s : String) : String :=
  ⟨((s.data.dropWhile isJsWhitespace).reverse.dropWhile isJsWhitespace).reverse⟩

/-- The emptiness test applied to a trimmed transcript. -/
def isBlankAfterTrim (s : String) : Bool :=
  (jsTrim s).data.isEmpty

/-- An error is rate-limit-shaped when its message mentions rate, quota or
throttl, or its status is 429. -/
def isRateLimitShaped (e : ApiError) : Bool :=
  containsSubstr e.message ratePat ||
  containsSubstr e.message quotaPat ||
  containsSubstr e.message throttlPat ||
  e.status == some 429

/-! ## Responder retry loops (LLMHelper.ts) -/

/-- maxRetries in both retry loops. -/
def LLM_maxRetries : Nat := 3

/-- Message of the generic error thrown by respondToTextWithHistory once the
while loop exhausts all maxRetries + 1 attempts (LLMHelper.ts line 452). -/
def respondFailureMessage : String :=
  "[LLMHelper] Failed to get text response after 4 attempts"

/-- The while loop of respondToTextWithHistory (LLMHelper.ts lines 387-450).
`attempt n` is the outcome of the call on attempt number `n` (starting at 0).
The catch block increments retryCount and, whenever retries remain, waits
2 ^ retryCount seconds and continues — for every error, with no rate-limit
test.  Returns the final outcome together with the list of backoff waits (ms)
performed.  The fuel argument counts remaining loop iterations; the loop
starts with fuel LLM_maxRetries + 1, and since the loop body stops as soon as
retryCount exceeds LLM_maxRetries the fuel-zero branch is never reached from
that entry point. -/
def respondRetryLoop (attempt : Nat → Except ApiError RespResult) :
    Nat → Nat → Except String RespResult × List Nat
  | _, 0 => (Except.error respondFailureMessage, [])
  | retryCount, fuel + 1 =>
    match attempt retryCount with
    | Except.ok r => (Except.ok r, [])
    | Except.error _ =>
      let rc := retryCount + 1
      if rc ≤ LLM_maxRetries then
        let rest := respondRetryLoop attempt rc fuel
        (rest.1, (2 ^ rc * 1000) :: rest.2)
      else
        (Except.error respondFailureMessage, [])

/-- respondToTextWithHistory (LLMHelper.ts line 381): the mode parameter
defaults to meeting.  Returns the call outcome, the backoff waits performed,
and the mode whose prompt was used.  The transcribed text and the history are
folded into the prompt and do not affect control flow. -/
def respondToTextWithHistory (attempt : Nat → Except ApiError RespResult)
    (transcribedText : String) (conversationHistory : List HistEntry)
    (mode : Mode := Mode.meeting) :
    Except String RespResult × List Nat × Mode :=
  let out := respondRetryLoop attempt 0 (LLM_maxRetries + 1)
  (out.1, out.2, mode)

/-- Placeholder message for the unreachable fuel-zero branch of the
analyzeAudioFromBase64 loop (the loop always returns or throws first). -/
def analyzeLoopExhausted : String := "retry loop exhausted"

/-- The while loop of analyzeAudioFromBase64 (LLMHelper.ts lines 232-275).
Unlike respondRetryLoop, the catch block retries only when retries remain AND
the error is rate-limit-shaped; otherwise the original error is rethrown at
once. -/
def analyzeAudioRetryLoop (attempt : Nat → Except ApiError RespResult) :
    Nat → Nat → Except ApiError RespResult × List Nat
  | _, 0 => (Except.error ⟨analyzeLoopExhausted, none⟩, [])
  | retryCount, fuel + 1 =>
    match attempt retryCount with
    | Except.ok r => (Except.ok r, [])
    | Except.error e =>
      let rc := retryCount + 1
      if rc ≤ LLM_maxRetries ∧ isRateLimitShaped e = true then
        let rest := analyzeAudioRetryLoop attempt rc fuel
        (rest.1, (2 ^ rc * 1000) :: rest.2)
      else
        (Except.error e, [])

/-- analyzeAudioFromBase64 (LLMHelper.ts line 226), abstracted over the
attempt outcomes. -/
def analyzeAudioFromBase64 (attempt : Nat → Except ApiError RespResult) :
    Except ApiError RespResult × List Nat :=
  analyzeAudioRetryLoop attempt 0 (LLM_maxRetries + 1)

/-! ## Conversation pipeline (ProcessingHelper.processConversationalAudio) -/

/-- History cap: last 12 exchanges = 24 entries (ProcessingHelper.ts 305-308). -/
def HISTORY_CAP : Nat := 24

/-- The truncation applied after pushing a turn: when length exceeds the cap,
keep the slice of the most recent HISTORY_CAP entries. -/
def capHistory (h : List HistEntry) : List HistEntry :=
  if HISTORY_CAP < h.length then h.drop (h.length - HISTORY_CAP) else h

/-- Push the user turn and the assistant turn, then truncate to the cap. -/
def appendExchange (h : List HistEntry) (userText aiText : String) :
    List HistEntry :=
  capHistory (h ++ [⟨Role.user, userText⟩, ⟨Role.assistant, aiText⟩])

/-- Observable outcome of one processConversationalAudio call: the returned
value or propagated error, the listen history after the call, and the mode
with which respondToTextWithHistory was invoked (none when the Responder was
not invoked at all). -/
structure PipeOutput where
  result : Except String RespResult
  history : List HistEntry
  respondModeUsed : Option Mode
  deriving DecidableEq, Repr

/-- processConversationalAudio (ProcessingHelper.ts lines 281-316).
`transcribe data mimeType` is the outcome of the Deepgram call; `attempt` is
the Responder stub handed to respondToTextWithHistory.  An empty-after-trim
transcript returns the empty result at once; a transcriber error or a
post-retry responder error propagates with the history untouched; on success
both turns are appended and the cap applied. -/
def processConversationalAudio
    (transcribe : String → String → Except String String)
    (attempt : Nat → Except ApiError RespResult)
    (data mimeType : String)
    (history : List HistEntry) (now : Int) : PipeOutput :=
  match transcribe data mimeType with
  | Except.error e => ⟨Except.error e, history, none⟩
  | Except.ok transcribedText =>
    if isBlankAfterTrim transcribedText then
      ⟨Except.ok ⟨"", now⟩, history, none⟩
    else
      let resp := respondToTextWithHistory attempt transcribedText history
      match resp.1 with
      | Except.error e => ⟨Except.error e, history, some resp.2.2⟩
      | Except.ok r =>
        ⟨Except.ok r, appendExchange history transcribedText r.text,
         some resp.2.2⟩

/-! ## The ipc boundary for listen-mode audio -/

/-- What the renderer sends on the analyze-audio-conversational channel
(QueueCommands.tsx line 546): base64 data, MIME type, and the selected UI
mode as a third argument. -/
structure IpcConversationalRequest where
  data : String
  mimeType : String
  uiMode : Mode
  deriving DecidableEq, Repr

/-- The ipc handler (ipcHandlers.ts lines 97-105) declares only the data and
mimeType parameters and forwards exactly those two to
processConversationalAudio; any further argument of the message is dropped. -/
def analyzeAudioConversationalHandler
    (transcribe : String → String → Except String String)
    (attempt : Nat → Except ApiError RespResult)
    (data mimeType : String)
    (history : List HistEntry) (now : Int) : PipeOutput :=
  processConversationalAudio transcribe attempt data mimeType history now

/-- End-to-end listen-mode processing of one utterance as triggered by the
renderer: the request carries the UI mode, the handler reads only the first
two arguments. -/
def rendererAnalyzeAudioConversational
    (transcribe : String → String → Except String String)
    (attempt : Nat → Except ApiError RespResult)
    (req : IpcConversationalRequest)
    (history : List HistEntry) (now : Int) : PipeOutput :=
  analyzeAudioConversationalHandler transcribe attempt req.data req.mimeType
    history now

/-! ## Voice-activity monitor (QueueCommands.tsx, setupSilenceDetection) -/

/-- 2.5 seconds of silence before processing. -/
def SILENCE_DURATION : Int := 2500

/-- Minimum recording duration before the silence path processes (reduced
from 3000 ms to 2000 ms in the current revision). -/
def MIN_RECORDING_MS : Int := 2000

/-- After processing, the silence-start marker is pushed this far into the
future to prevent immediate re-processing. -/
def REPROCESS_COOLDOWN_MS : Int := 5000

/-- Delay of the one-shot fallback speech-processing timer. -/
def FALLBACK_DELAY_MS : Int := 8000

/-- Minimum recording duration required when the fallback timer fires. -/
def FALLBACK_MIN_RECORDING_MS : Int := 4000

/-- Effective speech threshold: lower when a mixer gain node exists (system
audio active) to catch meeting participants (QueueCommands.tsx line 294). -/
def SPEECH_THRESHOLD (currentHasSystemAudio : Bool) : ℚ :=
  if currentHasSystemAudio then 8 else 15

/-- The mutable refs read and written by one volume-check tick. -/
structure MonitorState where
  isSpeaking : Bool
  silenceStartTime : Int
  recordingStartTime : Int
  isProcessing : Bool
  hasAudioChunks : Bool
  hasRecordedBlob : Bool
  hasMixerGainNode : Bool
  deriving DecidableEq, Repr

/-- hasAudioData as computed inside the tick: audio chunks exist or a
recorded blob exists. -/
def hasAudioData (st : MonitorState) : Bool :=
  st.hasAudioChunks || st.hasRecordedBlob

/-- Edge-triggered effects of one tick. -/
structure TickEvents where
  speechStarted : Bool
  fallbackTimerArmedMs : Option Int
  silenceConfirmed : Bool
  deriving DecidableEq, Repr

/-- The no-effect tick outcome. -/
def noEvents : TickEvents := ⟨false, none, false⟩

/-- One 100 ms volume-check tick (QueueCommands.tsx lines 269-347).  The
three leading flags are the guard refs; `now` is the tick timestamp and
`averageVolume` the computed frequency-energy average.  When the silence path
triggers processing, the synchronous prefix of processCurrentAudio sets the
busy flag before the tick then advances the silence-start marker. -/
def volumeTick (isListening isAiThinking isRecorderRestarting : Bool)
    (st : MonitorState) (now : Int) (averageVolume : ℚ) :
    MonitorState × TickEvents :=
  if !isListening || isAiThinking || isRecorderRestarting then
    (st, noEvents)
  else
    if SPEECH_THRESHOLD st.hasMixerGainNode < averageVolume then
      if st.isSpeaking then
        ({ st with silenceStartTime := now }, noEvents)
      else
        ({ st with isSpeaking := true, silenceStartTime := now },
         ⟨true, some FALLBACK_DELAY_MS, false⟩)
    else
      let st1 :=
        if st.isSpeaking then
          { st with isSpeaking := false, silenceStartTime := now }
        else st
      if SILENCE_DURATION ≤ now - st1.silenceStartTime ∧
          hasAudioData st1 = true ∧ st1.isProcessing = false then
        if MIN_RECORDING_MS ≤ now - st1.recordingStartTime then
          ({ st1 with isProcessing := true,
                      silenceStartTime := now + REPROCESS_COOLDOWN_MS },
           ⟨false, none, true⟩)
        else
          (st1, noEvents)
      else
        (st1, noEvents)

/-- The fallback speech-processing timer callback (QueueCommands.tsx lines
307-316): processes when unprocessed audio exists, nothing is in flight and
the recording is at least FALLBACK_MIN_RECORDING_MS old; the triggered
processCurrentAudio sets the busy flag synchronously. -/
def speechFallbackTimerFire (st : MonitorState) (fireTime : Int) :
    MonitorState × Bool :=
  if hasAudioData st = true ∧ st.isProcessing = false then
    if FALLBACK_MIN_RECORDING_MS ≤ fireTime - st.recordingStartTime then
      ({ st with isProcessing := true }, true)
    else
      (st, false)
  else
    (st, false)

/-! ## Completion of processCurrentAudio (QueueCommands.tsx lines 536-576) -/

/-- State visible after the reader onload callback of processCurrentAudio. -/
structure OnloadResult where
  monitor : MonitorState
  uiConversation : List HistEntry
  isAiThinking : Bool
  deriving DecidableEq, Repr

/-- The reader onload callback: try block consumes the analysis outcome
(appending the assistant message to the UI conversation when nonempty), the
catch block only logs, and the finally block unconditionally clears the AI
thinking flag, the busy flag, the audio chunks and the recorded blob, and
resets the recording start time. -/
def processCurrentAudioOnload (analysisResult : Except String RespResult)
    (st : MonitorState) (uiConversation : List HistEntry) (now : Int) :
    OnloadResult :=
  let ui :=
    match analysisResult with
    | Except.ok r =>
      if isBlankAfterTrim r.text then uiConversation
      else uiConversation ++ [⟨Role.assistant, r.text⟩]
    | Except.error _ => uiConversation
  ⟨{ st with isProcessing := false, hasAudioChunks := false,
             hasRecordedBlob := false, recordingStartTime := now },
   ui, false⟩

/-! ## Stop (QueueCommands.tsx, stopListening lines 1093-1153) -/

def normalAudioMode : String := "normal"

/-- The session fields stopListening touches, plus the listen history owned
by the main process (cleared through the clear-listen-conversation channel). -/
structure SessionState where
  isListening : Bool
  hasSystemAudio : Bool
  recordingDuration : Nat
  debugInfo : String
  justRestarted : Bool
  timersRunning : Bool
  monitor : MonitorState
  uiConversation : List HistEntry
  showFullConversation : Bool
  listenConversationHistory : List HistEntry
  audioModeRequested : Option String
  deriving DecidableEq, Repr

/-- stopListening: stop recording (clearing chunks, blob, busy flag and the
mixer gain node), clear every timer and flag, request the normal audio mode,
and clear both conversation histories.  Every step is inside try-catch in the
source, so the call never throws; here that is reflected by totality. -/
def stopListening (s : SessionState) : SessionState :=
  { s with
    isListening := false
    hasSystemAudio := false
    recordingDuration := 0
    debugInfo := ""
    justRestarted := false
    timersRunning := false
    monitor := { s.monitor with
                 isProcessing := false
                 hasAudioChunks := false
                 hasRecordedBlob := false
                 hasMixerGainNode := false }
    uiConversation := []
    showFullConversation := false
    listenConversationHistory := []
    audioModeRequested := some normalAudioMode }

/-! ## Stub fixtures used by witnesses and counterexamples -/

/-- Fixed transcript text for stubs. -/
def helloText : String := "hello there"

/-- Fixed responder answer text for stubs. -/
def okText : String := "all good"

/-- A transcription failure message. -/
def transErrText : String := "Deepgram transcription failed"

/-- A non-rate-limit error message: mentions none of rate, quota, throttl. -/
def hangupText : String := "socket hang up"

/-- A rate-limit-shaped error message. -/
def rateLimitText : String := "429 resource exhausted: quota exceeded"

/-- Whitespace-only transcript. -/
def blankText : String := "   "

/-- Placeholder base64 payload. -/
def dataText : String := "AAAA"

/-- Placeholder MIME type. -/
def mimeText : String := "audio/webm"

/-- A transcriber stub that always returns the fixed nonblank transcript. -/
def transcribeHello : String → String → Except String String :=
  fun _ _ => Except.ok helloText

/-- A transcriber stub that always returns the empty transcript. -/
def transcribeEmpty : String → String → Except String String :=
  fun _ _ => Except.ok ""

/-- A transcriber stub that always fails. -/
def transcribeFailing : String → String → Except String String :=
  fun _ _ => Except.error transErrText

/-- A responder stub that succeeds at once. -/
def attemptOk : Nat → Except ApiError RespResult :=
  fun _ => Except.ok ⟨okText, 1⟩

/-- A responder stub throwing a non-rate-limit error on attempt 0 and
succeeding from attempt 1 on. -/
def attemptHangupThenOk : Nat → Except ApiError RespResult :=
  fun n => if n = 0 then Except.error ⟨hangupText, none⟩ else Except.ok ⟨okText, 7⟩

/-- A responder stub throwing a rate-limit-shaped error on attempts 0 and 1
and succeeding from attempt 2 on. -/
def attemptRateLimitTwiceThenOk : Nat → Except ApiError RespResult :=
  fun n => if n < 2 then Except.error ⟨rateLimitText, some 429⟩
           else Except.ok ⟨okText, 3⟩

/-- A responder stub that always fails. -/
def attemptAlwaysFails : Nat → Except ApiError RespResult :=
  fun _ => Except.error ⟨hangupText, none⟩

/-- A monitor state in mid-silence with pending audio and nothing in
flight, used to exercise the firing paths. -/
def stPending : MonitorState :=
  ⟨false, 0, 0, false, true, false, false⟩

/-! ## Theorems -/

/-- C2.  If the transcript is empty or whitespace after trimming,
processConversationalAudio returns the empty result stamped with the current
time, leaves the conversation history exactly as it was, and never invokes
the Responder. -/
theorem process_empty_transcript_short_circuit
    (transcribe : String → String → Except String String)
    (attempt : Nat → Except ApiError RespResult)
    (data mimeType : String) (history : List HistEntry) (now : Int)
    (t : String) (htr : transcribe data mimeType = Except.ok t)
    (hblank : isBlankAfterTrim t = true) :
    processConversationalAudio transcribe attempt data mimeType history now =
      ⟨Except.ok ⟨"", now⟩, history, none⟩ := by
  simp [processConversationalAudio, htr, hblank]

/-- C2 witness: a whitespace transcript on a concrete nonempty history. -/
theorem process_empty_transcript_short_circuit_witness :
    processConversationalAudio (fun _ _ => Except.ok blankText) attemptOk
      dataText mimeText [⟨Role.user, helloText⟩] 5 =
      ⟨Except.ok ⟨"", 5⟩, [⟨Role.user, helloText⟩], none⟩ :=
  process_empty_transcript_short_circuit
    (fun _ _ => Except.ok blankText) attemptOk dataText mimeText
    ([⟨Role.user, helloText⟩] : List HistEntry) 5 blankText rfl (by decide)

/-- C3.  After appending a user turn and an assistant turn, the history holds
min (previous + 2) 24 entries, and it is exactly the suffix of the pushed
list that keeps the most recent 24 entries in their original oldest-first
order (the drop count is zero whenever the cap is not exceeded). -/
theorem appendExchange_cap (h : List HistEntry) (u a : String) :
    (appendExchange h u a).length = min (h.length + 2) HISTORY_CAP ∧
    appendExchange h u a =
      (h ++ ([⟨Role.user, u⟩, ⟨Role.assistant, a⟩] : List HistEntry)).drop
        (h.length + 2 - HISTORY_CAP) := by
  unfold appendExchange capHistory
  have hlen : (h ++ [(⟨Role.user, u⟩ : HistEntry), ⟨Role.assistant, a⟩]).length
      = h.length + 2 := by simp
  rw [hlen]
  by_cases hc : HISTORY_CAP < h.length + 2
  · rw [if_pos hc]
    constructor
    · rw [List.length_drop, hlen]
      omega
    · rfl
  · rw [if_neg hc]
    have hz : h.length + 2 - HISTORY_CAP = 0 := by omega
    rw [hz, List.drop_zero]
    constructor
    · rw [hlen]; omega
    · rfl

/-- C8.  stopListening leaves the session inactive and both conversation
histories empty, and a second call changes nothing: stop is idempotent on
the session state.  The model function is total, mirroring the try-catch
wrapping of every step in the source. -/
theorem stopListening_idempotent (s : SessionState) :
    (stopListening s).isListening = false ∧
    (stopListening s).listenConversationHistory = [] ∧
    (stopListening s).uiConversation = [] ∧
    stopListening (stopListening s) = stopListening s :=
  ⟨rfl, rfl, rfl, rfl⟩

/-- C9.  Whenever the session is inactive, a response is being generated, or
the recorder is mid-restart, the volume-check tick returns immediately: the
monitor state is unchanged and no event fires. -/
theorem volumeTick_guard
    (isListening isAiThinking isRecorderRestarting : Bool)
    (st : MonitorState) (now : Int) (vol : ℚ)
    (hguard : isListening = false ∨ isAiThinking = true ∨
      isRecorderRestarting = true) :
    volumeTick isListening isAiThinking isRecorderRestarting st now vol =
      (st, noEvents) := by
  rcases hguard with h | h | h <;> subst h <;>
    simp [volumeTick]

/-- C9 witness: a tick with loud volume and pending audio during an inactive
session is fully ignored. -/
theorem volumeTick_guard_witness :
    volumeTick false false false stPending 99999 200 = (stPending, noEvents) :=
  volumeTick_guard false false false stPending 99999 200 (Or.inl rfl)

/-- C4.  The effective speech threshold is 8 when a mixer gain node exists
(system audio active) and 15 otherwise, so the system-audio threshold is
strictly lower; on a tick out of silence with energy 10 the speech
classification happens exactly when the mixer gain node exists. -/
theorem speech_threshold_asymmetry :
    SPEECH_THRESHOLD true = 8 ∧ SPEECH_THRESHOLD false = 15 ∧
    SPEECH_THRESHOLD true < SPEECH_THRESHOLD false ∧
    ∀ (silStart recStart : Int) (processing chunks blob mixer : Bool)
      (now : Int),
      (volumeTick true false false
          ⟨false, silStart, recStart, processing, chunks, blob, mixer⟩
          now 10).2.speechStarted = mixer := by
  refine ⟨rfl, rfl, by norm_num [SPEECH_THRESHOLD], ?_⟩
  intro silStart recStart processing chunks blob mixer now
  cases mixer
  · simp only [volumeTick, SPEECH_THRESHOLD]
    norm_num
    split
    · split <;> rfl
    · rfl
  · simp only [volumeTick, SPEECH_THRESHOLD]
    norm_num

/-- C10.  The mode selected in the UI never reaches the listen pipeline: the
pipeline outcome is the same whatever mode the renderer puts into the
request, and whenever the Responder is invoked at all it is invoked with the
meeting mode — the default of respondToTextWithHistory — because the ipc
handler reads only the data and MIME type arguments and
processConversationalAudio passes no mode. -/
theorem listen_mode_always_meeting
    (transcribe : String → String → Except String String)
    (attempt : Nat → Except ApiError RespResult)
    (data mimeType : String) (uiMode : Mode)
    (history : List HistEntry) (now : Int) :
    rendererAnalyzeAudioConversational transcribe attempt
        ⟨data, mimeType, uiMode⟩ history now =
      rendererAnalyzeAudioConversational transcribe attempt
        ⟨data, mimeType, Mode.meeting⟩ history now ∧
    ((rendererAnalyzeAudioConversational transcribe attempt
        ⟨data, mimeType, uiMode⟩ history now).respondModeUsed = none ∨
     (rendererAnalyzeAudioConversational transcribe attempt
        ⟨data, mimeType, uiMode⟩ history now).respondModeUsed =
       some Mode.meeting) := by
  refine ⟨rfl, ?_⟩
  unfold rendererAnalyzeAudioConversational analyzeAudioConversationalHandler
    processConversationalAudio
  cases htr : transcribe data mimeType with
  | error e => left; rfl
  | ok t =>
    by_cases hb : isBlankAfterTrim t
    · left; simp [hb]
    · right
      cases hr : (respondToTextWithHistory attempt t history).1 <;>
        simp [hb, hr] <;> rfl

/-- C7.  If a processing run ends in an error — from the Transcriber, or from
the Responder after its retries — nothing is appended to the listen history;
and the completion callback of processCurrentAudio clears the thinking flag,
the busy flag and both audio buffers and resets the recording start time
whatever the outcome was, so the next utterance starts from clean state. -/
theorem processing_error_leaves_clean_state :
    (∀ (transcribe : String → String → Except String String)
       (attempt : Nat → Except ApiError RespResult)
       (data mimeType : String) (history : List HistEntry) (now : Int)
       (e : String),
       (processConversationalAudio transcribe attempt data mimeType history
           now).result = Except.error e →
       (processConversationalAudio transcribe attempt data mimeType history
           now).history = history) ∧
    (∀ (analysisResult : Except String RespResult) (st : MonitorState)
       (ui : List HistEntry) (now : Int),
       (processCurrentAudioOnload analysisResult st ui now).monitor.isProcessing
           = false ∧
       (processCurrentAudioOnload analysisResult st ui now).monitor.hasAudioChunks
           = false ∧
       (processCurrentAudioOnload analysisResult st ui now).monitor.hasRecordedBlob
           = false ∧
       (processCurrentAudioOnload analysisResult st ui
           now).monitor.recordingStartTime = now ∧
       (processCurrentAudioOnload analysisResult st ui now).isAiThinking
           = false) := by
  constructor
  · intro transcribe attempt data mimeType history now e herr
    unfold processConversationalAudio at *
    cases htr : transcribe data mimeType with
    | error e2 => simp [htr]
    | ok t =>
      by_cases hb : isBlankAfterTrim t
      · simp [htr, hb]
      · simp only [htr, hb, Bool.false_eq_true, if_neg] at herr ⊢
        cases hr : (respondToTextWithHistory attempt t history).1 with
        | error e2 => simp [hr]
        | ok r => simp [hr] at herr
  · intro analysisResult st ui now
    cases analysisResult <;>
      simp [processCurrentAudioOnload]

/-- C7 witness: a concrete failing Transcriber leaves a concrete one-entry
history unchanged. -/
theorem processing_error_leaves_clean_state_witness :
    (processConversationalAudio transcribeFailing attemptOk dataText mimeText
        ([⟨Role.user, helloText⟩] : List HistEntry) 3).history =
      [⟨Role.user, helloText⟩] :=
  processing_error_leaves_clean_state.1 transcribeFailing attemptOk dataText
    mimeText ([⟨Role.user, helloText⟩] : List HistEntry) 3 transErrText rfl

/-- Helper: the tick of an active session on a below-threshold sample with
the speaking flag down reduces to the silence-confirmation decision. -/
theorem volumeTick_silence_eq (st : MonitorState) (now : Int) (vol : ℚ)
    (hspk : st.isSpeaking = false)
    (hvol : ¬ SPEECH_THRESHOLD st.hasMixerGainNode < vol) :
    volumeTick true false false st now vol =
      if SILENCE_DURATION ≤ now - st.silenceStartTime ∧
          hasAudioData st = true ∧ st.isProcessing = false then
        if MIN_RECORDING_MS ≤ now - st.recordingStartTime then
          ({ st with isProcessing := true,
                     silenceStartTime := now + REPROCESS_COOLDOWN_MS },
           ⟨false, none, true⟩)
        else (st, noEvents)
      else (st, noEvents) := by
  simp [volumeTick, hspk, hvol]

/-- Helper: the tick of an active session on a below-threshold sample with
the speaking flag up only records the start of silence. -/
theorem volumeTick_speech_end_eq (st : MonitorState) (now : Int) (vol : ℚ)
    (hspk : st.isSpeaking = true)
    (hvol : ¬ SPEECH_THRESHOLD st.hasMixerGainNode < vol) :
    volumeTick true false false st now vol =
      ({ st with isSpeaking := false, silenceStartTime := now }, noEvents) := by
  simp only [volumeTick, hspk, hvol]
  norm_num [SILENCE_DURATION, noEvents]

/-- C5.  On below-threshold ticks of an active session (speaking flag down),
silence-confirmed processing fires exactly when elapsed silence is at least
2500 ms, pending audio exists, nothing is in flight and the recording is at
least 2000 ms old; firing raises the busy flag and advances the silence-start
marker 5000 ms into the future; a non-firing such tick changes nothing; the
tick that ends speech never fires; and from any state whose marker sits at
now + 5000 no tick before now + 7500 fires again — at most one firing per
qualifying silence window. -/
theorem silence_confirmation_fires_once
    (st : MonitorState) (now : Int) (vol : ℚ)
    (hspk : st.isSpeaking = false)
    (hvol : ¬ SPEECH_THRESHOLD st.hasMixerGainNode < vol) :
    ((volumeTick true false false st now vol).2.silenceConfirmed = true ↔
      (SILENCE_DURATION ≤ now - st.silenceStartTime ∧
       hasAudioData st = true ∧ st.isProcessing = false ∧
       MIN_RECORDING_MS ≤ now - st.recordingStartTime)) ∧
    ((volumeTick true false false st now vol).2.silenceConfirmed = true →
      (volumeTick true false false st now vol).1.silenceStartTime =
          now + REPROCESS_COOLDOWN_MS ∧
      (volumeTick true false false st now vol).1.isProcessing = true) ∧
    ((volumeTick true false false st now vol).2.silenceConfirmed = false →
      (volumeTick true false false st now vol).1 = st) ∧
    (∀ (st2 : MonitorState) (later : Int) (vol2 : ℚ),
      st2.isSpeaking = true →
      ¬ SPEECH_THRESHOLD st2.hasMixerGainNode < vol2 →
      (volumeTick true false false st2 later vol2).2.silenceConfirmed =
        false) ∧
    (∀ (st2 : MonitorState) (later : Int) (vol2 : ℚ),
      st2.silenceStartTime = now + REPROCESS_COOLDOWN_MS →
      later < now + REPROCESS_COOLDOWN_MS + SILENCE_DURATION →
      (volumeTick true false false st2 later vol2).2.silenceConfirmed =
        false) := by
  rw [volumeTick_silence_eq st now vol hspk hvol]
  refine ⟨?_, ?_, ?_, ?_, ?_⟩
  · by_cases hC : SILENCE_DURATION ≤ now - st.silenceStartTime ∧
        hasAudioData st = true ∧ st.isProcessing = false
    · by_cases hD : MIN_RECORDING_MS ≤ now - st.recordingStartTime
      · simp [hC, hD, noEvents]
      · simp [hC, hD, noEvents]
    · simp [hC, noEvents]
      intro h1 h2 h3
      exact absurd ⟨h1, h2, h3⟩ hC
  · by_cases hC : SILENCE_DURATION ≤ now - st.silenceStartTime ∧
        hasAudioData st = true ∧ st.isProcessing = false
    · by_cases hD : MIN_RECORDING_MS ≤ now - st.recordingStartTime
      · simp [hC, hD]
      · simp [hC, hD, noEvents]
    · simp [hC, noEvents]
  · by_cases hC : SILENCE_DURATION ≤ now - st.silenceStartTime ∧
        hasAudioData st = true ∧ st.isProcessing = false
    · by_cases hD : MIN_RECORDING_MS ≤ now - st.recordingStartTime
      · simp [hC, hD, noEvents]
      · simp [hC, hD, noEvents]
    · simp [hC, noEvents]
  · intro st2 later vol2 hspk2 hvol2
    rw [volumeTick_speech_end_eq st2 later vol2 hspk2 hvol2]
    rfl
  · intro st2 later vol2 hmark hlt
    by_cases hg : SPEECH_THRESHOLD st2.hasMixerGainNode < vol2
    · cases hspk2 : st2.isSpeaking <;> simp [volumeTick, hg, hspk2, noEvents]
    · cases hspk2 : st2.isSpeaking
      · rw [volumeTick_silence_eq st2 later vol2 hspk2 hg]
        have hno : ¬ SILENCE_DURATION ≤ later - st2.silenceStartTime := by
          rw [hmark]
          omega
        simp [hno, noEvents]
      · rw [volumeTick_speech_end_eq st2 later vol2 hspk2 hg]
        rfl

/-- C5 witness: from two-and-a-half seconds of silence over a pending
recording of the same age, the tick at time 2500 fires and moves the marker
to 7500 with the busy flag raised. -/
theorem silence_confirmation_fires_once_witness :
    (volumeTick true false false stPending 2500 3).2.silenceConfirmed = true ∧
    (volumeTick true false false stPending 2500 3).1.silenceStartTime = 7500 ∧
    (volumeTick true false false stPending 2500 3).1.isProcessing = true := by
  have h := silence_confirmation_fires_once stPending 2500 3 rfl
    (by norm_num [SPEECH_THRESHOLD, stPending])
  have hf : (volumeTick true false false stPending 2500 3).2.silenceConfirmed
      = true := by
    refine h.1.mpr ?_
    refine ⟨?_, rfl, rfl, ?_⟩ <;>
      norm_num [stPending, SILENCE_DURATION, MIN_RECORDING_MS]
  refine ⟨hf, ?_, (h.2.1 hf).2⟩
  have := (h.2.1 hf).1
  simpa [REPROCESS_COOLDOWN_MS] using this

/-- C6.  A tick of an active session whose energy exceeds the threshold arms
the one-shot 8000 ms fallback timer exactly on the silence-to-speech
transition (and emits the speech-started edge there); and when that timer
fires it triggers processing exactly when unprocessed audio exists, nothing
is in flight, and the recording is at least 4000 ms old — raising the busy
flag when it does. -/
theorem speech_fallback_timer
    (st : MonitorState) (now : Int) (vol : ℚ)
    (hvol : SPEECH_THRESHOLD st.hasMixerGainNode < vol) :
    ((volumeTick true false false st now vol).2.fallbackTimerArmedMs =
      if st.isSpeaking then none else some FALLBACK_DELAY_MS) ∧
    ((volumeTick true false false st now vol).2.speechStarted =
      !st.isSpeaking) ∧
    ((volumeTick true false false st now vol).1.isSpeaking = true) ∧
    (∀ (st2 : MonitorState) (fireTime : Int),
      ((speechFallbackTimerFire st2 fireTime).2 = true ↔
        (hasAudioData st2 = true ∧ st2.isProcessing = false ∧
         FALLBACK_MIN_RECORDING_MS ≤ fireTime - st2.recordingStartTime)) ∧
      ((speechFallbackTimerFire st2 fireTime).2 = true →
        (speechFallbackTimerFire st2 fireTime).1.isProcessing = true)) := by
  refine ⟨?_, ?_, ?_, ?_⟩
  · cases hspk : st.isSpeaking <;> simp [volumeTick, hvol, hspk, noEvents]
  · cases hspk : st.isSpeaking <;> simp [volumeTick, hvol, hspk, noEvents]
  · cases hspk : st.isSpeaking <;> simp [volumeTick, hvol, hspk, noEvents]
  · intro st2 fireTime
    by_cases hA : hasAudioData st2 = true ∧ st2.isProcessing = false
    · by_cases hB : FALLBACK_MIN_RECORDING_MS ≤ fireTime - st2.recordingStartTime
      · constructor
        · simp [speechFallbackTimerFire, hA, hB]
        · intro hfire
          simp [speechFallbackTimerFire, hA, hB]
      · constructor
        · simp [speechFallbackTimerFire, hA, hB]
        · intro hfire
          simp [speechFallbackTimerFire, hA, hB] at hfire
    · constructor
      · simp [speechFallbackTimerFire, hA]
        intro h1 h2
        exact absurd ⟨h1, h2⟩ hA
      · intro hfire
        simp [speechFallbackTimerFire, hA] at hfire

/-- C6 witness: a loud tick out of silence arms the 8000 ms timer, and the
timer firing over a 4000 ms pending recording triggers processing. -/
theorem speech_fallback_timer_witness :
    (volumeTick true false false stPending 0 20).2.fallbackTimerArmedMs =
      some 8000 ∧
    (speechFallbackTimerFire stPending 4000).2 = true := by
  have h := speech_fallback_timer stPending 0 20
    (by norm_num [SPEECH_THRESHOLD, stPending])
  constructor
  · have := h.1
    simpa [stPending, FALLBACK_DELAY_MS] using this
  · refine ((h.2.2.2 stPending 4000).1).mpr ?_
    refine ⟨rfl, rfl, ?_⟩
    norm_num [stPending, FALLBACK_MIN_RECORDING_MS]

/-- C1 counterexample: in the pipeline call respondToTextWithHistory, a
Responder failure that is not rate-limit-shaped does NOT propagate
immediately — it is retried, and here the call returns the attempt-1 success
after one 2000 ms backoff wait. -/
theorem respond_nonratelimit_retried_counterexample :
    isRateLimitShaped ⟨hangupText, none⟩ = false ∧
    respondToTextWithHistory attemptHangupThenOk helloText [] =
      (Except.ok ⟨okText, 7⟩, [2000], Mode.meeting) := by
  constructor
  · decide
  · rfl

/-- C1 amended: every failed attempt of respondToTextWithHistory is retried
with backoff waits 2 s, 4 s, 8 s regardless of error shape; when the first k
attempts fail and attempt k succeeds (k ≤ 3) the call returns that success
after exactly the first k waits, and when all four attempts fail a generic
failure propagates after all three waits (the turn is dropped, the original
error is discarded).  The rate-limit-only immediate-propagation behaviour
exists in analyzeAudioFromBase64 instead, where a first-attempt error that is
not rate-limit-shaped propagates at once with no wait. -/
theorem respond_retries_all_errors
    (attempt : Nat → Except ApiError RespResult)
    (text : String) (history : List HistEntry) :
    ((∀ n, n ≤ LLM_maxRetries → ∃ e, attempt n = Except.error e) →
      respondToTextWithHistory attempt text history =
        (Except.error respondFailureMessage, [2000, 4000, 8000],
         Mode.meeting)) ∧
    (∀ k, k ≤ LLM_maxRetries →
      (∀ n, n < k → ∃ e, attempt n = Except.error e) →
      ∀ r, attempt k = Except.ok r →
      respondToTextWithHistory attempt text history =
        (Except.ok r, (List.range k).map (fun i => 2 ^ (i + 1) * 1000),
         Mode.meeting)) ∧
    (∀ e, attempt 0 = Except.error e → isRateLimitShaped e = false →
      analyzeAudioFromBase64 attempt = (Except.error e, [])) := by
  refine ⟨?_, ?_, ?_⟩
  · intro hall
    obtain ⟨e0, h0⟩ := hall 0 (by norm_num [LLM_maxRetries])
    obtain ⟨e1, h1⟩ := hall 1 (by norm_num [LLM_maxRetries])
    obtain ⟨e2, h2⟩ := hall 2 (by norm_num [LLM_maxRetries])
    obtain ⟨e3, h3⟩ := hall 3 (by norm_num [LLM_maxRetries])
    simp [respondToTextWithHistory, respondRetryLoop, LLM_maxRetries,
      h0, h1, h2, h3]
  · intro k hk hfail r hsucc
    have hk3 : k ≤ 3 := by simpa [LLM_maxRetries] using hk
    interval_cases k
    · simp [respondToTextWithHistory, respondRetryLoop, hsucc]
    · obtain ⟨e0, h0⟩ := hfail 0 (by norm_num)
      simp [respondToTextWithHistory, respondRetryLoop, LLM_maxRetries,
        h0, hsucc, List.range_succ]
    · obtain ⟨e0, h0⟩ := hfail 0 (by norm_num)
      obtain ⟨e1, h1⟩ := hfail 1 (by norm_num)
      simp [respondToTextWithHistory, respondRetryLoop, LLM_maxRetries,
        h0, h1, hsucc, List.range_succ]
    · obtain ⟨e0, h0⟩ := hfail 0 (by norm_num)
      obtain ⟨e1, h1⟩ := hfail 1 (by norm_num)
      obtain ⟨e2, h2⟩ := hfail 2 (by norm_num)
      simp [respondToTextWithHistory, respondRetryLoop, LLM_maxRetries,
        h0, h1, h2, hsucc, List.range_succ]
  · intro e h0 hnr
    simp [analyzeAudioFromBase64, analyzeAudioRetryLoop, h0, hnr]

/-- C1 witness for the amended theorem: the rate-limit fixture of the spec —
two rate-limit failures then success — returns the success after exactly the
2 s and 4 s waits. -/
theorem respond_retries_all_errors_witness :
    respondToTextWithHistory attemptRateLimitTwiceThenOk helloText [] =
      (Except.ok ⟨okText, 3⟩, [2000, 4000], Mode.meeting) := by
  have h := (respond_retries_all_errors attemptRateLimitTwiceThenOk helloText
      []).2.1 2 (by norm_num [LLM_maxRetries])
      (fun n hn => ⟨⟨rateLimitText, some 429⟩, by interval_cases n <;> rfl⟩)
      ⟨okText, 3⟩ rfl
  simpa [List.range_succ] using h

end PersonalCluely
